import Mathlib

set_option linter.unusedVariables false

/-!
# Shallow embedding of the `volatile-mem` crate

The crate provides a `Volatile<T, Permission>` overlay over memory holding a
`Copy` value of type `T`, with compile-time permission markers `ReadWrite`,
`ReadOnly`, `WriteOnly` and two capability traits (`Read`, `Write`) that gate
the single-element volatile operations.  Bulk slice operations (`fill_volatile`,
`write_slice_volatile`, `read_slice_volatile`) iterate the single-element
operations over sequences of volatile cells, with a length-equality assert on
the copying operations.

Embedding conventions:
* A `Volatile T P` cell is the memory state of one volatile location: its
  single field `_data` is the current contents (`union Volatile { _data: T, .. }`
  in `src/volatile.rs`).
* Each operation returns, besides its result, the new memory state and a trace
  of the volatile operations it issued (`CellOp`), so that claims about memory
  effects and operation ordering are statable.
* Bulk operations act on `List (Volatile T P)` (the `[Volatile<T, P>]` slice
  obtained from the array `Deref` projection) and tag each issued cell
  operation with the element index.  A Rust panic is modelled as a `some`
  panic-message field in the outcome; the assert precedes the loop, so on
  panic the memory and destination are returned unchanged with an empty trace.
-/

namespace VolatileMem

/-- The three permission marker types of `src/volatile.rs`
(`struct ReadWrite; struct ReadOnly; struct WriteOnly;`). -/
inductive Permission where
  | ReadWrite
  | ReadOnly
  | WriteOnly
deriving DecidableEq, Repr

/-- The `Read` capability trait of `src/volatile.rs`:
`impl Read for ReadWrite {}` and `impl Read for ReadOnly {}` are its only
implementations, so exactly those two markers are readable. -/
def Permission.readable : Permission → Bool
  | .ReadWrite => true
  | .ReadOnly => true
  | .WriteOnly => false

/-- The `Write` capability trait of `src/volatile.rs`:
`impl Write for ReadWrite {}` and `impl Write for WriteOnly {}` are its only
implementations, so exactly those two markers are writable. -/
def Permission.writable : Permission → Bool
  | .ReadWrite => true
  | .ReadOnly => false
  | .WriteOnly => true

/-- The `Volatile<T, Permission>` type of `src/volatile.rs`: a same-layout
overlay of a value of type `T`; its contents `_data` are the current state of
the underlying volatile memory location.  The permission marker `P` is a
phantom parameter, exactly as `PhantomData<Permission>` in the source. -/
structure Volatile (T : Type) (P : Permission) where
  _data : T
deriving DecidableEq, Repr

/-- One volatile machine operation on a single memory cell, as observed by the
memory: a volatile load that produced the value `v`, or a volatile store of the
value `v`. -/
inductive CellOp (T : Type) where
  | rd (v : T)
  | wr (v : T)
deriving DecidableEq, Repr

/-- `VolatileRead::read` for `Volatile` (`src/volatile.rs` lines 140-149):
`(self as *const T).read_volatile()`.  Requires the `Read` capability on the
marker (`P: Read` bound).  Returns the value read, the memory state afterwards,
and the single volatile load issued. -/
def Volatile.read {T : Type} {P : Permission} (self : Volatile T P)
    (h : P.readable = true) : T × Volatile T P × List (CellOp T) :=
  (self._data, self, [CellOp.rd self._data])

/-- `VolatileWrite::write` for `Volatile` (`src/volatile.rs` lines 151-160):
`(self as *mut T).write_volatile(val)`, overwriting without reading the old
value.  Requires the `Write` capability on the marker (`P: Write` bound).
Returns the memory state afterwards and the single volatile store issued. -/
def Volatile.write {T : Type} {P : Permission} (self : Volatile T P) (val : T)
    (h : P.writable = true) : Volatile T P × List (CellOp T) :=
  (⟨val⟩, [CellOp.wr val])

/-- `fmt::Debug for Volatile` (`src/volatile.rs` lines 208-212):
`f.pad(type_name::<Self>())`.  The formatter output is the static type name
(passed here as the argument `typeName`, since `type_name` is a compile-time
intrinsic); the cell's memory is neither read nor written, so the memory state
is returned unchanged and the trace of volatile operations is empty. -/
def Volatile.debugFmt {T : Type} {P : Permission} (self : Volatile T P)
    (typeName : String) : String × Volatile T P × List (CellOp T) :=
  (typeName, self, [])

/-- Outcome of a bulk slice operation (`src/lib.rs`): `panicked` is `some msg`
when the operation panicked with message `msg` (the `assert!` failed) and
`none` otherwise; `result` is the output sequence afterwards (the volatile
memory for writes, the destination slice for reads); `trace` is the sequence of
single-element volatile operations issued, each tagged with the element index
it touched, in the order they were issued. -/
structure BulkOutcome (T : Type) (R : Type) where
  panicked : Option String
  result : R
  trace : List (Nat × CellOp T)
deriving DecidableEq, Repr

/-- The loop of `VolatileWriteSlice::fill_volatile` (`src/lib.rs` lines
196-201): `for elem in this.iter_mut() { elem.write(val) }`, iterating the
elements in ascending order.  `i` is the index of the first element of the
remaining suffix, used only to tag the trace. -/
def fillLoop {T : Type} {P : Permission} (h : P.writable = true) (i : Nat)
    (val : T) : List (Volatile T P) → List (Volatile T P) × List (Nat × CellOp T)
  | [] => ([], [])
  | c :: cs =>
      let w := Volatile.write c val h
      let rest := fillLoop h (i + 1) val cs
      (w.1 :: rest.1, w.2.map (fun op => (i, op)) ++ rest.2)

/-- `VolatileWriteSlice::fill_volatile` (`src/lib.rs` lines 196-201): writes
`val` to every element of the slice via the single-element write operation.
There is no length precondition and no assert, so no panic is possible. -/
def fill_volatile {T : Type} {P : Permission} (h : P.writable = true)
    (this : List (Volatile T P)) (val : T) :
    List (Volatile T P) × List (Nat × CellOp T) :=
  fillLoop h 0 val this

/-- The panic message of the `assert!` shared by `read_slice_volatile` and
`write_slice_volatile` (`src/lib.rs` lines 153-158 and 221-226):
`"source slice length ({}) does not match destination slice length ({})"`,
instantiated with the source length then the destination length. -/
def lengthMismatchMsg (srcLen dstLen : Nat) : String :=
  "source slice length (" ++ toString srcLen ++
    ") does not match destination slice length (" ++ toString dstLen ++ ")"

/-- The loop of `VolatileWriteSlice::write_slice_volatile` (`src/lib.rs` lines
228-230): `for i in 0..this.len() { this[i].write(src[i]) }`.  Only reached
with `this.len() == src.len()`; the impossible longer-`this` case returns the
remaining cells untouched. -/
def writeLoop {T : Type} {P : Permission} (h : P.writable = true) (i : Nat) :
    List (Volatile T P) → List T → List (Volatile T P) × List (Nat × CellOp T)
  | [], _ => ([], [])
  | cs, [] => (cs, [])
  | c :: cs, s :: ss =>
      let w := Volatile.write c s h
      let rest := writeLoop h (i + 1) cs ss
      (w.1 :: rest.1, w.2.map (fun op => (i, op)) ++ rest.2)

/-- `VolatileWriteSlice::write_slice_volatile` (`src/lib.rs` lines 219-231):
asserts `this.len() == src.len()` (panicking with `lengthMismatchMsg src.len
this.len` on mismatch, before any element is touched), then writes `src[i]`
into `this[i]` for each index in ascending order via the single-element write.
`result` is the volatile memory afterwards. -/
def write_slice_volatile {T : Type} {P : Permission} (h : P.writable = true)
    (this : List (Volatile T P)) (src : List T) :
    BulkOutcome T (List (Volatile T P)) :=
  if this.length = src.length then
    let r := writeLoop h 0 this src
    ⟨none, r.1, r.2⟩
  else
    ⟨some (lengthMismatchMsg src.length this.length), this, []⟩

/-- The loop of `VolatileReadSlice::read_slice_volatile` (`src/lib.rs` lines
160-162): `for i in 0..this.len() { dst[i] = this[i].read() }`.  Only reached
with `this.len() == dst.len()`; the impossible shorter-`dst` case stops.  The
volatile memory `this` is only read (`&self`), never modified; the returned
list is the destination slice afterwards. -/
def readLoop {T : Type} {P : Permission} (h : P.readable = true) (i : Nat) :
    List (Volatile T P) → List T → List T × List (Nat × CellOp T)
  | [], ds => (ds, [])
  | _ :: _, [] => ([], [])
  | c :: cs, _d :: ds =>
      let r := Volatile.read c h
      let rest := readLoop h (i + 1) cs ds
      (r.1 :: rest.1, r.2.2.map (fun op => (i, op)) ++ rest.2)

/-- `VolatileReadSlice::read_slice_volatile` (`src/lib.rs` lines 151-163):
asserts `this.len() == dst.len()` (panicking with `lengthMismatchMsg this.len
dst.len` on mismatch, before any element is touched), then reads `this[i]`
into `dst[i]` for each index in ascending order via the single-element read.
`result` is the destination slice afterwards; the volatile memory is
unchanged (the operation takes `&self`). -/
def read_slice_volatile {T : Type} {P : Permission} (h : P.readable = true)
    (this : List (Volatile T P)) (dst : List T) : BulkOutcome T (List T) :=
  if this.length = dst.length then
    let r := readLoop h 0 this dst
    ⟨none, r.1, r.2⟩
  else
    ⟨some (lengthMismatchMsg this.length dst.length), dst, []⟩

/-- An accessor over a fixed-size array `[T; N]`, as used by the `Deref` and
`DerefMut` impls for `Volatile<[T; N], P>` (`src/volatile.rs` lines 162-182):
`addr` is the accessor's own address, `elemSize` is `sizeof(T)`, `len` is `N`,
and `perm` is the permission marker (a type parameter in the source, carried
here as data so the projection's preservation of it is statable). -/
structure ArrayAccessor where
  addr : Nat
  elemSize : Nat
  len : Nat
  perm : Permission
deriving DecidableEq, Repr

/-- A single-element accessor view `&Volatile<T, P>`, identified by its address
and permission marker. -/
structure ElemAccessor where
  addr : Nat
  perm : Permission
deriving DecidableEq, Repr

/-- The array-to-sequence projection `Deref`/`DerefMut` for
`Volatile<[T; N], P>` (`src/volatile.rs` lines 162-182):
`slice::from_raw_parts(self as *const Volatile<T, P>, N)`.  A Rust slice of
`N` elements at base pointer `p` consists of the elements at addresses
`p + i * sizeof(elem)` for `i` in `0..N`; the base pointer is the array
accessor's own address and the element type is `Volatile<T, P>`, which is a
transparent overlay of `T` and hence has size `sizeof(T)`.  Every element view
keeps the permission marker `P` of the array accessor. -/
def derefArray (a : ArrayAccessor) : List ElemAccessor :=
  (List.range a.len).map (fun i => ⟨a.addr + i * a.elemSize, a.perm⟩)

/-- Lifetime variables of the signature
`pub fn from_ref<'a>(mem: &T) -> &'a Self` (`src/volatile.rs` lines 109-113):
variable `0` is the elided lifetime of the borrow of `mem`, variable `1` is
the caller-chosen lifetime `'a` of the returned accessor reference.  An
assignment maps each variable to the instant at which that reference expires;
an `outlives` constraint `(a, b)` demands that variable `a` expire no earlier
than variable `b`. -/
def lifetimesSatisfy (asgn : Nat → Nat) (cs : List (Nat × Nat)) : Prop :=
  ∀ c ∈ cs, asgn c.2 ≤ asgn c.1

instance (asgn : Nat → Nat) (cs : List (Nat × Nat)) :
    Decidable (lifetimesSatisfy asgn cs) := by
  unfold lifetimesSatisfy; infer_instance

/-- The outlives constraints the source signature of `Volatile::from_ref`
imposes between the borrow of `mem` (variable `0`) and the returned reference
(variable `1`): the signature `fn from_ref<'a>(mem: &T) -> &'a Self` leaves
`'a` fresh and unrelated to the elided borrow lifetime, so the list is empty.
The `from_mut` signature (`src/volatile.rs` lines 119-123) is identical in
this respect. -/
def from_ref_constraints : List (Nat × Nat) := []

/-- The outlives constraints under which the returned accessor reference
cannot outlive the borrowed memory: the borrow (variable `0`) outlives the
returned reference (variable `1`).  This is the constraint the specification
describes, and also the one the `From<&'a T> for &'a Volatile<T, P>` impl
(`src/volatile.rs` lines 126-130) actually carries, where both sides share the
one lifetime `'a`. -/
def from_ref_claim_constraints : List (Nat × Nat) := [(0, 1)]

/-! ## Helper lemmas about the bulk-operation loops -/

theorem fillLoop_fst {T : Type} {P : Permission} (h : P.writable = true)
    (val : T) (cs : List (Volatile T P)) :
    ∀ i : Nat, (fillLoop h i val cs).1 = List.replicate cs.length ⟨val⟩ := by
  induction cs with
  | nil => intro i; rfl
  | cons c cs ih =>
      intro i
      simp [fillLoop, Volatile.write, List.replicate_succ, ih]

theorem fillLoop_snd {T : Type} {P : Permission} (h : P.writable = true)
    (val : T) (cs : List (Volatile T P)) :
    ∀ i : Nat, (fillLoop h i val cs).2 =
      (List.range' i cs.length).map (fun j => (j, CellOp.wr val)) := by
  induction cs with
  | nil => intro i; rfl
  | cons c cs ih =>
      intro i
      simp [fillLoop, Volatile.write, List.range'_succ, ih]

theorem writeLoop_fst {T : Type} {P : Permission} (h : P.writable = true)
    (cs : List (Volatile T P)) :
    ∀ (ss : List T) (i : Nat), cs.length = ss.length →
      (writeLoop h i cs ss).1 = ss.map (fun s => (⟨s⟩ : Volatile T P)) := by
  induction cs with
  | nil =>
      intro ss i hlen
      cases ss with
      | nil => rfl
      | cons s ss => simp at hlen
  | cons c cs ih =>
      intro ss i hlen
      cases ss with
      | nil => simp at hlen
      | cons s ss =>
          simp only [List.length_cons, Nat.succ.injEq] at hlen
          simp [writeLoop, Volatile.write, ih ss (i + 1) hlen]

theorem writeLoop_snd {T : Type} {P : Permission} (h : P.writable = true)
    (cs : List (Volatile T P)) :
    ∀ (ss : List T) (i : Nat), cs.length = ss.length →
      (writeLoop h i cs ss).2 =
        List.zipWith (fun j s => (j, CellOp.wr s)) (List.range' i cs.length) ss := by
  induction cs with
  | nil =>
      intro ss i hlen
      cases ss with
      | nil => rfl
      | cons s ss => simp at hlen
  | cons c cs ih =>
      intro ss i hlen
      cases ss with
      | nil => simp at hlen
      | cons s ss =>
          simp only [List.length_cons, Nat.succ.injEq] at hlen
          simp [writeLoop, Volatile.write, List.range'_succ, ih ss (i + 1) hlen]

theorem readLoop_fst {T : Type} {P : Permission} (h : P.readable = true)
    (cs : List (Volatile T P)) :
    ∀ (ds : List T) (i : Nat), cs.length = ds.length →
      (readLoop h i cs ds).1 = cs.map (fun c => c._data) := by
  induction cs with
  | nil =>
      intro ds i hlen
      cases ds with
      | nil => rfl
      | cons d ds => simp at hlen
  | cons c cs ih =>
      intro ds i hlen
      cases ds with
      | nil => simp at hlen
      | cons d ds =>
          simp only [List.length_cons, Nat.succ.injEq] at hlen
          simp [readLoop, Volatile.read, ih ds (i + 1) hlen]

theorem readLoop_snd {T : Type} {P : Permission} (h : P.readable = true)
    (cs : List (Volatile T P)) :
    ∀ (ds : List T) (i : Nat), cs.length = ds.length →
      (readLoop h i cs ds).2 =
        List.zipWith (fun j c => (j, CellOp.rd c._data)) (List.range' i cs.length) cs := by
  induction cs with
  | nil =>
      intro ds i hlen
      cases ds with
      | nil => rfl
      | cons d ds => simp at hlen
  | cons c cs ih =>
      intro ds i hlen
      cases ds with
      | nil => simp at hlen
      | cons d ds =>
          simp only [List.length_cons, Nat.succ.injEq] at hlen
          simp [readLoop, Volatile.read, List.range'_succ, ih ds (i + 1) hlen]

/-! ## Claim theorems -/

/-- C1: for every accessor whose permission marker implements both the `Read`
and the `Write` capability, and every value `v` of the element type,
`write(v)` immediately followed by `read()` on the same accessor returns
`v`. -/
theorem write_then_read {T : Type} {P : Permission} (hr : P.readable = true)
    (hw : P.writable = true) (self : Volatile T P) (v : T) :
    ((Volatile.write self v hw).1.read hr).1 = v := rfl

/-- Witness for C1 at marker `ReadWrite`, element type `Nat`, initial contents
`0`, written value `42`. -/
theorem write_then_read_witness :
    ((Volatile.write (⟨0⟩ : Volatile Nat Permission.ReadWrite) 42 rfl).1.read rfl).1 = 42 :=
  write_then_read (by rfl) (by rfl) ⟨0⟩ 42

/-- C5: `read()` does not change the underlying memory: the memory state after
the read equals the state before it, and a second consecutive read returns the
same value as the first. -/
theorem read_preserves_memory {T : Type} {P : Permission}
    (h : P.readable = true) (self : Volatile T P) :
    (self.read h).2.1 = self ∧ ((self.read h).2.1.read h).1 = (self.read h).1 :=
  ⟨rfl, rfl⟩

/-- Witness for C5 at marker `ReadOnly`, element type `Nat`, contents `5`. -/
theorem read_preserves_memory_witness :
    ((⟨5⟩ : Volatile Nat Permission.ReadOnly).read rfl).2.1 = ⟨5⟩ ∧
    ((((⟨5⟩ : Volatile Nat Permission.ReadOnly).read rfl).2.1).read rfl).1 =
      ((⟨5⟩ : Volatile Nat Permission.ReadOnly).read rfl).1 :=
  read_preserves_memory (by rfl) ⟨5⟩

/-- C10: formatting an accessor with the `Debug` implementation performs no
read and no write of the underlying memory: the output is exactly the static
type name, independent of the memory contents, the trace of volatile
operations is empty, and the memory state afterwards equals the state
before. -/
theorem debug_fmt_no_memory_access {T : Type} {P : Permission}
    (a b : Volatile T P) (tn : String) :
    (Volatile.debugFmt a tn).1 = tn ∧
    (Volatile.debugFmt a tn).2.1 = a ∧
    (Volatile.debugFmt a tn).2.2 = ([] : List (CellOp T)) ∧
    (Volatile.debugFmt a tn).1 = (Volatile.debugFmt b tn).1 :=
  ⟨rfl, rfl, rfl, rfl⟩

/-- C8: the read operation is gated on the `Read` capability, which exactly
the markers `ReadWrite` and `ReadOnly` hold, and the write operation on the
`Write` capability, which exactly `ReadWrite` and `WriteOnly` hold; in
particular `WriteOnly` is not readable and `ReadOnly` is not writable. -/
theorem capability_gating (P : Permission) :
    (P.readable = true ↔ P = Permission.ReadWrite ∨ P = Permission.ReadOnly) ∧
    (P.writable = true ↔ P = Permission.ReadWrite ∨ P = Permission.WriteOnly) := by
  cases P <;> exact ⟨by decide, by decide⟩

/-- C4: `fill_volatile(v)` has no length precondition (it is a total
operation over any sequence, including the empty one), and afterwards every
one of the `N` elements of the sequence holds `v`. -/
theorem fill_volatile_sets_all {T : Type} {P : Permission}
    (h : P.writable = true) (this : List (Volatile T P)) (v : T) :
    (fill_volatile h this v).1.length = this.length ∧
    ∀ i : Nat, ∀ hi : i < (fill_volatile h this v).1.length,
      ((fill_volatile h this v).1.get ⟨i, hi⟩)._data = v := by
  have hfst : (fill_volatile h this v).1 = List.replicate this.length ⟨v⟩ :=
    fillLoop_fst h v this 0
  constructor
  · rw [hfst, List.length_replicate]
  · intro i hi
    simp only [List.get_eq_getElem, hfst, List.getElem_replicate]

/-- Witness for C4 at marker `ReadWrite`, sequence `[1, 2]`, fill value `7`. -/
theorem fill_volatile_sets_all_witness :
    (fill_volatile (by rfl) ([⟨1⟩, ⟨2⟩] : List (Volatile Nat Permission.ReadWrite)) 7).1.length = 2 ∧
    ((fill_volatile (by rfl) ([⟨1⟩, ⟨2⟩] : List (Volatile Nat Permission.ReadWrite)) 7).1.get
      ⟨0, by decide⟩)._data = 7 :=
  ⟨(fill_volatile_sets_all (by rfl) [⟨1⟩, ⟨2⟩] 7).1,
   (fill_volatile_sets_all (by rfl) [⟨1⟩, ⟨2⟩] 7).2 0 (by decide)⟩

/-- C2: `read_slice_volatile` and `write_slice_volatile` panic exactly when
the volatile sequence and the plain slice have different lengths; the panic
message names both lengths (source length first, destination length second),
and on panic no element is read or written: the volatile-operation trace is
empty and the memory (resp. destination) is unchanged.  With equal lengths no
panic occurs. -/
theorem slice_length_mismatch_panics {T : Type} {P : Permission}
    (hr : P.readable = true) (hw : P.writable = true)
    (this : List (Volatile T P)) (src dst : List T) :
    (this.length ≠ dst.length →
      read_slice_volatile hr this dst =
        ⟨some (lengthMismatchMsg this.length dst.length), dst, []⟩) ∧
    (this.length ≠ src.length →
      write_slice_volatile hw this src =
        ⟨some (lengthMismatchMsg src.length this.length), this, []⟩) ∧
    (this.length = dst.length → (read_slice_volatile hr this dst).panicked = none) ∧
    (this.length = src.length → (write_slice_volatile hw this src).panicked = none) := by
  refine ⟨?_, ?_, ?_, ?_⟩ <;> intro hl <;>
    simp [read_slice_volatile, write_slice_volatile, hl]

/-- Witness for C2 at marker `ReadWrite`: a volatile sequence of length 1
against a destination of length 2 (mismatch: panic message, unchanged
destination, empty trace) and a source of length 1 (match: no panic). -/
theorem slice_length_mismatch_panics_witness :
    read_slice_volatile (by rfl) ([⟨0⟩] : List (Volatile Nat Permission.ReadWrite)) [5, 6] =
      ⟨some (lengthMismatchMsg 1 2), [5, 6], []⟩ ∧
    (write_slice_volatile (by rfl)
      ([⟨0⟩] : List (Volatile Nat Permission.ReadWrite)) [5]).panicked = none :=
  ⟨(slice_length_mismatch_panics (by rfl) (by rfl) [⟨0⟩] [5] [5, 6]).1 (by decide),
   (slice_length_mismatch_panics (by rfl) (by rfl) [⟨0⟩] [5] [5, 6]).2.2.2 (by decide)⟩

/-- C3: writing a source slice into a volatile sequence of the same length `N`
and then reading that sequence back into a destination slice of length `N`
reproduces the source in the destination element-for-element: neither
operation panics and the destination afterwards equals the source. -/
theorem write_slice_then_read_slice_roundtrip {T : Type} {P : Permission}
    (hr : P.readable = true) (hw : P.writable = true)
    (this : List (Volatile T P)) (src dst : List T)
    (h1 : this.length = src.length) (h2 : this.length = dst.length) :
    (write_slice_volatile hw this src).panicked = none ∧
    (read_slice_volatile hr (write_slice_volatile hw this src).result dst).panicked = none ∧
    (read_slice_volatile hr (write_slice_volatile hw this src).result dst).result = src := by
  have hres : (write_slice_volatile hw this src).result =
      src.map (fun s => (⟨s⟩ : Volatile T P)) := by
    simp [write_slice_volatile, h1, writeLoop_fst hw this src 0 h1]
  have hlen : (write_slice_volatile hw this src).result.length = dst.length := by
    rw [hres, List.length_map]; omega
  refine ⟨?_, ?_, ?_⟩
  · simp [write_slice_volatile, h1]
  · simp [read_slice_volatile, hlen]
  · rw [hres]
    have hlen2 : (src.map (fun s => (⟨s⟩ : Volatile T P))).length = dst.length := by
      rw [List.length_map]; omega
    simp [read_slice_volatile, hlen2,
      readLoop_fst hr (src.map (fun s => (⟨s⟩ : Volatile T P))) dst 0 hlen2,
      List.map_map, Function.comp]
    exact List.map_id src

/-- Witness for C3 at marker `ReadWrite`: memory `[0, 0]`, source `[3, 4]`,
destination initially `[9, 9]`; the read-back yields `[3, 4]`. -/
theorem write_slice_then_read_slice_roundtrip_witness :
    (read_slice_volatile (by rfl)
      (write_slice_volatile (by rfl)
        ([⟨0⟩, ⟨0⟩] : List (Volatile Nat Permission.ReadWrite)) [3, 4]).result
      [9, 9]).result = [3, 4] :=
  (write_slice_then_read_slice_roundtrip (by rfl) (by rfl)
    [⟨0⟩, ⟨0⟩] [3, 4] [9, 9] (by decide) (by decide)).2.2

/-- C6: each bulk operation issues exactly one single-element volatile
operation per element, tagged with strictly ascending indices `0..N-1` in
order: the trace of `fill_volatile` is a store at every index of
`List.range N` in order, and the traces of `write_slice_volatile` and
`read_slice_volatile` (with equal lengths) pair `List.range N` in order with
the values transferred at each index. -/
theorem bulk_ops_trace_ascending {T : Type} {P : Permission}
    (hr : P.readable = true) (hw : P.writable = true)
    (this : List (Volatile T P)) (src dst : List T) (v : T) :
    (fill_volatile hw this v).2 =
      (List.range this.length).map (fun i => (i, CellOp.wr v)) ∧
    (this.length = src.length →
      (write_slice_volatile hw this src).trace =
        List.zipWith (fun i s => (i, CellOp.wr s)) (List.range this.length) src) ∧
    (this.length = dst.length →
      (read_slice_volatile hr this dst).trace =
        List.zipWith (fun i c => (i, CellOp.rd c._data)) (List.range this.length) this) := by
  refine ⟨?_, ?_, ?_⟩
  · rw [List.range_eq_range']
    exact fillLoop_snd hw v this 0
  · intro hl
    rw [List.range_eq_range']
    simp [write_slice_volatile, hl, writeLoop_snd hw this src 0 hl]
  · intro hl
    rw [List.range_eq_range']
    simp [read_slice_volatile, hl, readLoop_snd hr this dst 0 hl]

/-- Witness for C6 at marker `ReadWrite`: a sequence of length 2, fill value
`7`, source `[3, 4]`, destination `[9, 9]`. -/
theorem bulk_ops_trace_ascending_witness :
    (fill_volatile (by rfl) ([⟨1⟩, ⟨2⟩] : List (Volatile Nat Permission.ReadWrite)) 7).2 =
      [(0, CellOp.wr 7), (1, CellOp.wr 7)] ∧
    (write_slice_volatile (by rfl)
      ([⟨1⟩, ⟨2⟩] : List (Volatile Nat Permission.ReadWrite)) [3, 4]).trace =
      [(0, CellOp.wr 3), (1, CellOp.wr 4)] ∧
    (read_slice_volatile (by rfl)
      ([⟨1⟩, ⟨2⟩] : List (Volatile Nat Permission.ReadWrite)) [9, 9]).trace =
      [(0, CellOp.rd 1), (1, CellOp.rd 2)] :=
  ⟨(bulk_ops_trace_ascending (by rfl) (by rfl) [⟨1⟩, ⟨2⟩] [3, 4] [9, 9] 7).1,
   (bulk_ops_trace_ascending (by rfl) (by rfl) [⟨1⟩, ⟨2⟩] [3, 4] [9, 9] 7).2.1 (by decide),
   (bulk_ops_trace_ascending (by rfl) (by rfl) [⟨1⟩, ⟨2⟩] [3, 4] [9, 9] 7).2.2 (by decide)⟩

/-- C7: the array-to-sequence projection of an array accessor over `[T; N]`
yields exactly `N` element accessors; element `i` sits at the array
accessor's own address plus `i * sizeof(T)` and carries the same permission
marker as the array accessor. -/
theorem deref_array_projection (a : ArrayAccessor) :
    (derefArray a).length = a.len ∧
    ∀ i : Nat, ∀ hi : i < (derefArray a).length,
      ((derefArray a).get ⟨i, hi⟩).addr = a.addr + i * a.elemSize ∧
      ((derefArray a).get ⟨i, hi⟩).perm = a.perm := by
  constructor
  · simp [derefArray]
  · intro i hi
    simp [derefArray]

/-- Witness for C7: an array accessor at address 100 with element size 4,
3 elements and the `ReadOnly` marker; element 2 sits at address 108. -/
theorem deref_array_projection_witness :
    (derefArray ⟨100, 4, 3, Permission.ReadOnly⟩).length = 3 ∧
    ((derefArray ⟨100, 4, 3, Permission.ReadOnly⟩).get ⟨2, by decide⟩).addr = 108 ∧
    ((derefArray ⟨100, 4, 3, Permission.ReadOnly⟩).get ⟨2, by decide⟩).perm =
      Permission.ReadOnly :=
  ⟨(deref_array_projection ⟨100, 4, 3, Permission.ReadOnly⟩).1,
   ((deref_array_projection ⟨100, 4, 3, Permission.ReadOnly⟩).2 2 (by decide)).1,
   ((deref_array_projection ⟨100, 4, 3, Permission.ReadOnly⟩).2 2 (by decide)).2⟩

/-- C9 evidence: the lifetime assignment letting the borrow of `mem` expire at
instant 0 and the returned accessor reference at instant 1 satisfies every
outlives constraint the source signature of `Volatile::from_ref` imposes
(there are none: the returned lifetime `'a` is fresh and unconstrained), yet
violates the constraint described by the claim, that the borrowed memory
outlive the returned reference.  The signature therefore admits an accessor
reference that outlives the memory it was derived from. -/
theorem from_ref_lifetime_unconstrained :
    lifetimesSatisfy (fun v => v) from_ref_constraints ∧
    ¬ lifetimesSatisfy (fun v => v) from_ref_claim_constraints := by
  constructor
  · intro c hc
    simp [from_ref_constraints] at hc
  · intro hsat
    have h01 := hsat (0, 1) (by simp [from_ref_claim_constraints])
    simp at h01

end VolatileMem
